import Mathlib

/-!
Verification of the record-management and audit core of the portable DNS
manager backend (`backend/app.py`).

The backend keeps an in-memory zone store (`dns_data`, a dict from zone name
to a list of record dicts) and an in-memory audit log (`audit_log`, a list of
formatted strings appended by `log_action`).  The HTTP handlers `connect`,
`get_records`, `add_record`, `update_record`, `delete_records`, `bulk_update`
and `get_audit_logs` read and mutate this state.

Embedding conventions:
* A record dict `{"hostname": h, "record_type": t, "value": v}` becomes the
  structure `DnsRecord`.
* The store is an association list `ZoneStore` (python dicts preserve
  insertion order and the handlers never create or drop keys).
* `log_action` produces an `AuditEntry` (level, user, message); the wall-clock
  timestamp prefix and the `print` side effect are outside the model.
* Each handler returns its result together with the new store and the list of
  audit entries it appended, in order; the caller's audit log after the call
  is the old log with that list appended.
* Python truthiness on the string fields taken from the request JSON
  (`data.get(...)` is `None` when absent, and `not all([...])` also rejects
  empty strings) is modelled by `String` fields where `""` stands for a
  missing-or-empty field.
* `random.random() > 0.1` in `bulk_update` is modelled by an oracle
  `Nat → Bool` consulted once per change that passes the missing-data check,
  in order.
* HTTP status codes (200, 201, 202, 400, 401, 404) appear as `Nat` payloads
  where a claim depends on them.
-/

structure DnsRecord where
  hostname : String
  record_type : String
  value : String
deriving DecidableEq

structure AuditEntry where
  level : String
  user : String
  message : String
deriving DecidableEq

/-- Python's `str.lower()`: lowercase every character.  Written as a direct
`List.map` on the character data (equal to `String.toLower`, see
`strLower_eq_toLower`) so that it reduces by evaluation. -/
def strLower (s : String) : String :=
  ⟨s.data.map Char.toLower⟩

/-- Python's `str.upper()`: uppercase every character (equal to
`String.toUpper`). -/
def strUpper (s : String) : String :=
  ⟨s.data.map Char.toUpper⟩

/-- `log_action(level, message, user="Backend")`: builds the audit entry that
the python function appends (`level.upper()` is applied in the f-string). -/
def log_action (level message : String) (user : String := "Backend") : AuditEntry :=
  { level := strUpper level, user := user, message := message }

/-- The zone store: insertion-ordered mapping from zone name to record list. -/
abbrev ZoneStore := List (String × List DnsRecord)

/-- `zone_name in dns_data` / `dns_data[zone_name]` as a lookup. -/
def lookupZone (store : ZoneStore) (zone_name : String) : Option (List DnsRecord) :=
  (store.find? (fun p => p.1 == zone_name)).map (fun p => p.2)

/-- `dns_data[zone_name] = rs` for a key already present (every handler checks
`zone_name not in dns_data` first, so assignment never creates a key). -/
def setZone (store : ZoneStore) (zone_name : String) (rs : List DnsRecord) : ZoneStore :=
  store.map (fun p => if p.1 == zone_name then (p.1, rs) else p)

/-- The seed dataset `dns_data` from the top of `app.py`. -/
def dns_data : ZoneStore :=
  [ ("example.com",
      [ ⟨"www", "A", "192.168.1.100"⟩,
        ⟨"api", "CNAME", "www.example.com"⟩,
        ⟨"mail", "MX", "mail.example.com"⟩,
        ⟨"txttest", "TXT", "v=spf1 include:_spf.google.com ~all"⟩,
        ⟨"srvtest", "SRV", "0 5 5060 sip.example.com"⟩ ]),
    ("sub.example.com",
      [ ⟨"dev", "A", "192.168.1.101"⟩,
        ⟨"test", "A", "192.168.1.102"⟩ ]),
    ("anotherdomain.local",
      [ ⟨"ftp", "CNAME", "dev.example.com"⟩,
        ⟨"printer", "A", "192.168.1.103"⟩,
        ⟨"vpn", "A", "192.168.1.104"⟩ ]) ]

/-- `a.isPrefixOf`-style check on char lists, used to embed python's
substring operator `in`. -/
def hasPre : List Char → List Char → Bool
  | [], _ => true
  | _ :: _, [] => false
  | a :: as, b :: bs => a == b && hasPre as bs

/-- `needle in hay` for char lists: some suffix of `hay` starts with
`needle`. -/
def hasSub (needle : List Char) : List Char → Bool
  | [] => hasPre needle []
  | b :: bs => hasPre needle (b :: bs) || hasSub needle bs

/-- Python `needle in hay` on strings (substring containment). -/
def strContains (needle hay : String) : Bool :=
  hasSub needle.data hay.data

/-- `connect`: dummy credential check; returns the zone list on success.
Appends the "Attempting connection" entry and then one outcome entry. -/
inductive ConnectResult where
  | ok (zones : List String) (status : Nat)
  | authError (status : Nat)
deriving DecidableEq

def connect (store : ZoneStore) (dns_server username password : String) :
    ConnectResult × List AuditEntry :=
  let attempt := log_action "INFO"
    s!"Attempting connection to {dns_server} with user {username}" username
  if username == "admin@example.com" && password == "password" then
    (ConnectResult.ok (store.map (fun p => p.1)) 200,
     [attempt,
      log_action "INFO" "Connection and authentication successful (simulated)." username])
  else
    (ConnectResult.authError 401,
     [attempt,
      log_action "ERROR" "Connection failed: Invalid credentials (simulated)." username])

/-- The per-record filter of `get_records`: `match_type and match_search`
(with `search_term` already lowercased at entry). -/
def recordMatches (record_type_filter search_term : String) (record : DnsRecord) : Bool :=
  let match_type := record_type_filter == "All" || record.record_type == record_type_filter
  let match_search := search_term == "" ||
      strContains search_term (strLower record.hostname) ||
      strContains search_term (strLower record.value)
  match_type && match_search

inductive GetRecordsResult where
  | zoneNotFound (status : Nat)
  | ok (records : List DnsRecord) (status : Nat)
deriving DecidableEq

/-- `get_records(zone_name)` with query parameters `record_type` (default
`"All"`) and `search_term` (default `""`, lowercased on read). -/
def get_records (store : ZoneStore) (zone_name record_type_filter search_term_raw : String) :
    GetRecordsResult × List AuditEntry :=
  let search_term := strLower search_term_raw
  match lookupZone store zone_name with
  | none =>
      (GetRecordsResult.zoneNotFound 404,
       [log_action "WARNING" s!"Attempted to fetch records for non-existent zone: {zone_name}"])
  | some records =>
      let filtered_records := records.foldl
        (fun acc record =>
          if recordMatches record_type_filter search_term record then acc ++ [record] else acc)
        []
      let n := filtered_records.length
      (GetRecordsResult.ok filtered_records 200,
       [log_action "INFO" s!"Fetched {n} records for zone {zone_name} (filtered)."])

inductive AddResult where
  | validationError (status : Nat)
  | zoneNotFound (status : Nat)
  | created (record : DnsRecord) (status : Nat)
deriving DecidableEq

/-- `add_record(zone_name)`: validates the three fields, then checks the zone,
then appends the record to the zone's list. -/
def add_record (store : ZoneStore) (zone_name hostname record_type value : String) :
    AddResult × ZoneStore × List AuditEntry :=
  if hostname == "" || record_type == "" || value == "" then
    (AddResult.validationError 400, store, [])
  else
    match lookupZone store zone_name with
    | none => (AddResult.zoneNotFound 404, store, [])
    | some records =>
        let new_record : DnsRecord := ⟨hostname, record_type, value⟩
        (AddResult.created new_record 201,
         setZone store zone_name (records ++ [new_record]),
         [log_action "INFO" s!"Added record (simulated): {hostname} {record_type} {value} in {zone_name}"])

/-- The record-identity test used by `update_record`, `bulk_update` and
`delete_records`: exact, case-sensitive equality on all three fields. -/
def fieldsMatch (hostname record_type value : String) (record : DnsRecord) : Bool :=
  record.hostname == hostname && record.record_type == record_type &&
    record.value == value

/-- The in-place first-match mutation loop of `update_record` / `bulk_update`:
find the first record equal on (hostname, record_type, old_value), set its
`value` to `new_value`, and stop; `none` when no record matches. -/
def updateFirst (hostname record_type old_value new_value : String) :
    List DnsRecord → Option (List DnsRecord)
  | [] => none
  | record :: rest =>
      if fieldsMatch hostname record_type old_value record then
        some ({ record with value := new_value } :: rest)
      else
        (updateFirst hostname record_type old_value new_value rest).map
          (fun rest2 => record :: rest2)

inductive UpdateResult where
  | validationError (status : Nat)
  | zoneNotFound (status : Nat)
  | recordNotFound (status : Nat)
  | updated (status : Nat)
deriving DecidableEq

/-- `update_record(zone_name)`. -/
def update_record (store : ZoneStore) (zone_name hostname record_type old_value new_value : String) :
    UpdateResult × ZoneStore × List AuditEntry :=
  if hostname == "" || record_type == "" || old_value == "" || new_value == "" then
    (UpdateResult.validationError 400, store, [])
  else
    match lookupZone store zone_name with
    | none => (UpdateResult.zoneNotFound 404, store, [])
    | some records =>
        match updateFirst hostname record_type old_value new_value records with
        | some records2 =>
            (UpdateResult.updated 200, setZone store zone_name records2,
             [log_action "INFO"
               s!"Updated record (simulated): {hostname} {record_type} {old_value} -> {new_value} in {zone_name}"])
        | none =>
            (UpdateResult.recordNotFound 404, store,
             [log_action "ERROR"
               s!"Record not found for update (simulated): {hostname} {record_type} {old_value} in {zone_name}"])

/-- Exact-triple match used by the deletion list comprehension. -/
def tripleMatch (d r : DnsRecord) : Bool :=
  fieldsMatch d.hostname d.record_type d.value r

/-- One iteration of the `delete_records` loop on the current zone list:
filter out every record matching the requested triple; report whether the
length decreased. -/
def deleteStep (d : DnsRecord) (zone : List DnsRecord) : List DnsRecord × Bool :=
  let filtered := zone.filter (fun r => !(tripleMatch d r))
  (filtered, decide (filtered.length < zone.length))

/-- The `for rec_data in records_to_delete` loop: threads the zone list,
`deleted_count`, `failed_deletions` and the appended audit entries. -/
def deleteLoop (zone_name : String) :
    List DnsRecord → List DnsRecord → Nat → List DnsRecord → List AuditEntry →
      List DnsRecord × Nat × List DnsRecord × List AuditEntry
  | [], zone, deleted_count, failed_deletions, audit =>
      (zone, deleted_count, failed_deletions, audit)
  | d :: rest, zone, deleted_count, failed_deletions, audit =>
      let hostname := d.hostname
      let record_type := d.record_type
      let value := d.value
      let step := deleteStep d zone
      if step.2 then
        deleteLoop zone_name rest step.1 (deleted_count + 1) failed_deletions
          (audit ++ [log_action "INFO"
            s!"Deleted record (simulated): {hostname} {record_type} {value} in {zone_name}"])
      else
        deleteLoop zone_name rest step.1 deleted_count (failed_deletions ++ [d])
          (audit ++ [log_action "ERROR"
            s!"Failed to delete record (simulated): {hostname} {record_type} {value} in {zone_name}"])

inductive DeleteResult where
  | validationError (status : Nat)
  | zoneNotFound (status : Nat)
  | done (status : Nat) (deleted_count : Nat) (failed_deletions : List DnsRecord)
deriving DecidableEq

/-- `delete_records(zone_name)`: batch deletion; 202 with the failure list
when some sub-deletion failed, 200 otherwise. -/
def delete_records (store : ZoneStore) (zone_name : String)
    (records_to_delete : List DnsRecord) :
    DeleteResult × ZoneStore × List AuditEntry :=
  if records_to_delete.isEmpty then
    (DeleteResult.validationError 400, store, [])
  else
    match lookupZone store zone_name with
    | none => (DeleteResult.zoneNotFound 404, store, [])
    | some records =>
        let res := deleteLoop zone_name records_to_delete records 0 [] []
        let newStore := setZone store zone_name res.1
        if res.2.2.1.isEmpty then
          (DeleteResult.done 200 res.2.1 res.2.2.1, newStore, res.2.2.2)
        else
          (DeleteResult.done 202 res.2.1 res.2.2.1, newStore, res.2.2.2)

/-- One entry of `changes` in `bulk_update`; `old_value = ""` models both an
absent `old_value` (`None`) and an empty one — `if old_value:` treats both as
"add" rather than "update". -/
structure BulkChange where
  hostname : String
  record_type : String
  new_value : String
  old_value : String
deriving DecidableEq

structure FailedChange where
  change : BulkChange
  error : String
deriving DecidableEq

/-- `not all([hostname, record_type, new_value])`: the missing-data rejection
test of `bulk_update` (it does not look at `old_value`). -/
def changeMissing (change : BulkChange) : Bool :=
  change.hostname == "" || change.record_type == "" || change.new_value == ""

/-- The `for change in changes` loop of `bulk_update`.  `oracle i` is the
outcome of the `i`-th `random.random() > 0.1` roll; a change rejected for
missing data does not roll (it `continue`s before the roll). -/
def bulkLoop (oracle : Nat → Bool) (zone_name : String) :
    List BulkChange → List DnsRecord → Nat → Nat → List FailedChange → List AuditEntry →
      List DnsRecord × Nat × List FailedChange × List AuditEntry
  | [], zone, _, success_count, failed_changes, audit =>
      (zone, success_count, failed_changes, audit)
  | change :: rest, zone, roll, success_count, failed_changes, audit =>
      let hostname := change.hostname
      let record_type := change.record_type
      let new_value := change.new_value
      let old_value := change.old_value
      if changeMissing change then
        bulkLoop oracle zone_name rest zone roll success_count
          (failed_changes ++ [⟨change, "Missing data"⟩]) audit
      else if oracle roll then
        if old_value == "" then
          bulkLoop oracle zone_name rest
            (zone ++ [⟨hostname, record_type, new_value⟩]) (roll + 1) (success_count + 1)
            failed_changes
            (audit ++ [log_action "INFO"
              s!"Bulk added record (simulated): {hostname} {record_type} {new_value} in {zone_name}"])
        else
          match updateFirst hostname record_type old_value new_value zone with
          | some zone2 =>
              bulkLoop oracle zone_name rest zone2 (roll + 1) (success_count + 1)
                failed_changes
                (audit ++ [log_action "INFO"
                  s!"Bulk updated record (simulated): {hostname} {record_type} {old_value} -> {new_value} in {zone_name}"])
          | none =>
              bulkLoop oracle zone_name rest zone (roll + 1) success_count
                (failed_changes ++ [⟨change, "Record not found for update (simulated)"⟩])
                (audit ++ [log_action "ERROR"
                  s!"Bulk update failed (record not found): {hostname} {record_type} {old_value} -> {new_value} in {zone_name}"])
      else
        bulkLoop oracle zone_name rest zone (roll + 1) success_count
          (failed_changes ++ [⟨change, "Simulated failure"⟩])
          (audit ++ [log_action "ERROR"
            s!"Bulk update failed (simulated): {hostname} {record_type} in {zone_name}"])

inductive BulkResult where
  | validationError (status : Nat)
  | zoneNotFound (status : Nat)
  | done (status : Nat) (success_count : Nat) (failed_changes : List FailedChange)
deriving DecidableEq

/-- `bulk_update(zone_name)`: both final branches answer with status 200. -/
def bulk_update (oracle : Nat → Bool) (store : ZoneStore) (zone_name : String)
    (changes : List BulkChange) :
    BulkResult × ZoneStore × List AuditEntry :=
  if changes.isEmpty then
    (BulkResult.validationError 400, store, [])
  else
    match lookupZone store zone_name with
    | none => (BulkResult.zoneNotFound 404, store, [])
    | some records =>
        let res := bulkLoop oracle zone_name changes records 0 0 [] []
        let newStore := setZone store zone_name res.1
        if res.2.2.1.isEmpty then
          (BulkResult.done 200 res.2.1 res.2.2.1, newStore, res.2.2.2)
        else
          (BulkResult.done 200 res.2.1 res.2.2.1, newStore, res.2.2.2)

/-- `get_audit_logs`: `log_action` appends first, then the (already mutated)
`audit_log` list is returned; result is (returned logs, new audit log). -/
def get_audit_logs (audit_log : List AuditEntry) : List AuditEntry × List AuditEntry :=
  let audit2 := audit_log ++ [log_action "INFO" "Audit logs requested."]
  (audit2, audit2)

/-! ### Helper lemmas about the store -/

theorem lookupZone_cons (p : String × List DnsRecord) (t : ZoneStore) (z : String) :
    lookupZone (p :: t) z = if p.1 = z then some p.2 else lookupZone t z := by
  by_cases h : p.1 = z
  · simp [lookupZone, List.find?, h]
  · have hb : (p.1 == z) = false := by simpa using h
    simp [lookupZone, List.find?, h, hb]

theorem setZone_cons (p : String × List DnsRecord) (t : ZoneStore) (z : String)
    (rs : List DnsRecord) :
    setZone (p :: t) z rs = (if p.1 = z then (p.1, rs) else p) :: setZone t z rs := by
  by_cases h : p.1 = z <;> simp [setZone, h]

theorem lookupZone_setZone_self (store : ZoneStore) (z : String) (rs : List DnsRecord)
    (h : (lookupZone store z).isSome) :
    lookupZone (setZone store z rs) z = some rs := by
  induction store with
  | nil => simp [lookupZone] at h
  | cons p t ih =>
    rw [setZone_cons]
    by_cases hz : p.1 = z
    · rw [if_pos hz, lookupZone_cons, if_pos hz]
    · rw [if_neg hz, lookupZone_cons, if_neg hz]
      rw [lookupZone_cons, if_neg hz] at h
      exact ih h

theorem lookupZone_setZone_ne (store : ZoneStore) (z z2 : String) (rs : List DnsRecord)
    (h : z2 ≠ z) :
    lookupZone (setZone store z rs) z2 = lookupZone store z2 := by
  induction store with
  | nil => simp [lookupZone, setZone]
  | cons p t ih =>
    rw [setZone_cons, lookupZone_cons]
    by_cases hz : p.1 = z
    · have hz2 : ¬ ((if p.1 = z then (p.1, rs) else p).1 = z2) := by
        rw [if_pos hz]
        exact fun hh => h (hh ▸ hz ▸ rfl)
      rw [if_neg hz2, lookupZone_cons, if_neg (by rw [if_pos hz] at hz2; exact hz2), ih]
    · rw [if_neg hz, lookupZone_cons]
      by_cases hz2 : p.1 = z2
      · rw [if_pos hz2, if_pos hz2]
      · rw [if_neg hz2, if_neg hz2, ih]

theorem map_fst_setZone (store : ZoneStore) (z : String) (rs : List DnsRecord) :
    (setZone store z rs).map Prod.fst = store.map Prod.fst := by
  simp only [setZone, List.map_map]
  apply List.map_congr_left
  intro p _
  by_cases hz : p.1 = z <;> simp [hz]

/-! ### Helper lemmas about the filter loop and substring test -/

theorem foldl_append_filter {α : Type} (p : α → Bool) :
    ∀ (l acc : List α),
      l.foldl (fun acc r => if p r then acc ++ [r] else acc) acc = acc ++ l.filter p
  | [], acc => by simp
  | r :: l, acc => by
    by_cases h : p r <;>
      simp [List.filter_cons, h, foldl_append_filter p l]

theorem hasPre_iff : ∀ n h : List Char, hasPre n h = true ↔ n <+: h
  | [], h => by simp [hasPre]
  | a :: as, [] => by simp [hasPre]
  | a :: as, b :: bs => by
    simp [hasPre, hasPre_iff as bs, List.cons_prefix_cons, beq_iff_eq]

theorem hasSub_iff : ∀ n h : List Char, hasSub n h = true ↔ n <:+: h
  | n, [] => by
    cases n <;> simp [hasSub, hasPre]
  | n, b :: bs => by
    rw [ List.infix_cons_iff]
    simp [hasSub, hasPre_iff, hasSub_iff n bs]

theorem strContains_iff (needle hay : String) :
    strContains needle hay = true ↔ needle.data <:+: hay.data := by
  simp [strContains, hasSub_iff]

theorem strLower_eq_toLower (s : String) : strLower s = s.toLower := by
  simp [strLower, String.toLower, String.map_eq]

theorem strLower_empty_iff (s : String) : strLower s = "" ↔ s = "" := by
  constructor
  · intro h
    have hd : s.data.map Char.toLower = ([] : List Char) := congrArg String.data h
    cases s with
    | mk data => cases data <;> simp_all
  · rintro rfl; rfl

theorem toLower_empty_iff (s : String) : s.toLower = "" ↔ s = "" := by
  rw [← strLower_eq_toLower]
  exact strLower_empty_iff s

/-! ### Helper lemmas about `updateFirst` -/

theorem fieldsMatch_iff (h t v : String) (r : DnsRecord) :
    fieldsMatch h t v r = true ↔ r.hostname = h ∧ r.record_type = t ∧ r.value = v := by
  simp [fieldsMatch, and_assoc]

theorem updateFirst_eq_none_iff (h t ov nv : String) :
    ∀ l : List DnsRecord,
      updateFirst h t ov nv l = none ↔
        ∀ r ∈ l, ¬(r.hostname = h ∧ r.record_type = t ∧ r.value = ov)
  | [] => by simp [updateFirst]
  | r :: l => by
    by_cases hc : fieldsMatch h t ov r
    · simp [updateFirst, hc, (fieldsMatch_iff h t ov r).mp hc]
    · have hcp : ¬(r.hostname = h ∧ r.record_type = t ∧ r.value = ov) :=
        fun hh => hc ((fieldsMatch_iff h t ov r).mpr hh)
      simp only [updateFirst, if_neg hc, Option.map_eq_none',
        updateFirst_eq_none_iff h t ov nv l, List.mem_cons]
      constructor
      · intro hall r2 hmem
        rcases hmem with rfl | hmem
        · exact hcp
        · exact hall r2 hmem
      · intro hall r2 hmem
        exact hall r2 (Or.inr hmem)

theorem updateFirst_append (h t ov nv : String) :
    ∀ (l₁ : List DnsRecord) (r : DnsRecord) (l₂ : List DnsRecord),
      (∀ r2 ∈ l₁, ¬(r2.hostname = h ∧ r2.record_type = t ∧ r2.value = ov)) →
      r.hostname = h → r.record_type = t → r.value = ov →
      updateFirst h t ov nv (l₁ ++ r :: l₂) = some (l₁ ++ { r with value := nv } :: l₂)
  | [], r, l₂, _, h1, h2, h3 => by
    have hm : fieldsMatch h t ov r = true := (fieldsMatch_iff h t ov r).mpr ⟨h1, h2, h3⟩
    simp [updateFirst, hm]
  | a :: l₁, r, l₂, hl, h1, h2, h3 => by
    have ha : ¬ fieldsMatch h t ov a = true := fun hh =>
      hl a (by simp) ((fieldsMatch_iff h t ov a).mp hh)
    simp only [List.cons_append, updateFirst, if_neg ha, List.append_eq]
    rw [updateFirst_append h t ov nv l₁ r l₂ (fun r2 hr2 => hl r2 (by simp [hr2])) h1 h2 h3]
    rfl

/-! ### Helper lemmas about the deletion loop -/

theorem deleteStep_fst (d : DnsRecord) (zone : List DnsRecord) :
    (deleteStep d zone).1 = zone.filter (fun r => !(tripleMatch d r)) := rfl

theorem deleteStep_snd_iff (d : DnsRecord) (zone : List DnsRecord) :
    (deleteStep d zone).2 = true ↔ ∃ r ∈ zone, tripleMatch d r = true := by
  simp only [deleteStep, decide_eq_true_eq]
  rw [ List.length_filter_lt_length_iff_exists]
  simp

theorem deleteLoop_fst (zn : String) :
    ∀ (ds zone : List DnsRecord) (dc : Nat) (fd : List DnsRecord) (au : List AuditEntry),
      (deleteLoop zn ds zone dc fd au).1 =
        zone.filter (fun r => ds.all (fun d => !(tripleMatch d r)))
  | [], zone, dc, fd, au => by simp [deleteLoop]
  | d :: ds, zone, dc, fd, au => by
    have key : ∀ dc2 fd2 au2,
        (deleteLoop zn ds (deleteStep d zone).1 dc2 fd2 au2).1 =
          zone.filter (fun r => (d :: ds).all (fun d2 => !(tripleMatch d2 r))) := by
      intro dc2 fd2 au2
      rw [deleteLoop_fst zn ds _ dc2 fd2 au2, deleteStep_fst, List.filter_filter]
      apply List.filter_congr
      intro r _
      simp [Bool.and_comm]
    simp only [deleteLoop]
    by_cases hstep : (deleteStep d zone).2 <;> simp only [hstep, if_true, if_false,
      Bool.false_eq_true] <;> exact key _ _ _

theorem deleteLoop_count (zn : String) :
    ∀ (ds zone : List DnsRecord) (dc : Nat) (fd : List DnsRecord) (au : List AuditEntry),
      (deleteLoop zn ds zone dc fd au).2.1 + (deleteLoop zn ds zone dc fd au).2.2.1.length
        = dc + fd.length + ds.length
  | [], zone, dc, fd, au => by simp [deleteLoop]
  | d :: ds, zone, dc, fd, au => by
    simp only [deleteLoop]
    by_cases hstep : (deleteStep d zone).2 <;>
      simp only [hstep, if_true, if_false, Bool.false_eq_true]
    · have := deleteLoop_count zn ds (deleteStep d zone).1 (dc + 1) fd
        (au ++ [log_action "INFO"
          s!"Deleted record (simulated): {d.hostname} {d.record_type} {d.value} in {zn}"])
      simp only [List.length_cons]
      omega
    · have := deleteLoop_count zn ds (deleteStep d zone).1 dc (fd ++ [d])
        (au ++ [log_action "ERROR"
          s!"Failed to delete record (simulated): {d.hostname} {d.record_type} {d.value} in {zn}"])
      simp only [List.length_append, List.length_cons, List.length_nil] at this ⊢
      omega

theorem strUpper_INFO : strUpper "INFO" = "INFO" := rfl

theorem strUpper_ERROR : strUpper "ERROR" = "ERROR" := rfl

theorem strUpper_WARNING : strUpper "WARNING" = "WARNING" := rfl

/-- Level of an entry produced by `log_action`. -/
theorem log_action_level (level message user : String) :
    (log_action level message user).level = strUpper level := rfl

theorem deleteLoop_audit (zn : String) :
    ∀ (ds zone : List DnsRecord) (dc : Nat) (fd : List DnsRecord) (au : List AuditEntry),
      (deleteLoop zn ds zone dc fd au).2.2.2.length = au.length + ds.length ∧
      (deleteLoop zn ds zone dc fd au).2.2.2.countP (fun e => e.level == "INFO") + dc
        = au.countP (fun e => e.level == "INFO") + (deleteLoop zn ds zone dc fd au).2.1 ∧
      (deleteLoop zn ds zone dc fd au).2.2.2.countP (fun e => e.level == "ERROR") + fd.length
        = au.countP (fun e => e.level == "ERROR") + (deleteLoop zn ds zone dc fd au).2.2.1.length
  | [], zone, dc, fd, au => by simp [deleteLoop]
  | d :: ds, zone, dc, fd, au => by
    have cII : ∀ m u, List.countP (fun e => e.level == "INFO") [log_action "INFO" m u] = 1 :=
      fun _ _ => rfl
    have cIE : ∀ m u, List.countP (fun e => e.level == "ERROR") [log_action "INFO" m u] = 0 :=
      fun _ _ => rfl
    have cEI : ∀ m u, List.countP (fun e => e.level == "INFO") [log_action "ERROR" m u] = 0 :=
      fun _ _ => rfl
    have cEE : ∀ m u, List.countP (fun e => e.level == "ERROR") [log_action "ERROR" m u] = 1 :=
      fun _ _ => rfl
    simp only [deleteLoop]
    by_cases hstep : (deleteStep d zone).2 <;>
      simp only [hstep, if_true, if_false, Bool.false_eq_true]
    · have ih := deleteLoop_audit zn ds (deleteStep d zone).1 (dc + 1) fd
        (au ++ [log_action "INFO"
          s!"Deleted record (simulated): {d.hostname} {d.record_type} {d.value} in {zn}"])
      simp only [List.length_append, List.countP_append, cII, cIE,
        List.length_cons, List.length_nil] at ih ⊢
      omega
    · have ih := deleteLoop_audit zn ds (deleteStep d zone).1 dc (fd ++ [d])
        (au ++ [log_action "ERROR"
          s!"Failed to delete record (simulated): {d.hostname} {d.record_type} {d.value} in {zn}"])
      simp only [List.length_append, List.countP_append, cEI, cEE,
        List.length_cons, List.length_nil] at ih ⊢
      omega

theorem bulkLoop_spec (oracle : Nat → Bool) (zn : String) :
    ∀ (cs : List BulkChange) (zone : List DnsRecord) (roll sc : Nat)
      (fc : List FailedChange) (au : List AuditEntry),
      (bulkLoop oracle zn cs zone roll sc fc au).2.2.2.length + cs.countP changeMissing
        = au.length + cs.length ∧
      (bulkLoop oracle zn cs zone roll sc fc au).2.1
          + (bulkLoop oracle zn cs zone roll sc fc au).2.2.1.length
        = sc + fc.length + cs.length ∧
      (bulkLoop oracle zn cs zone roll sc fc au).2.2.2.countP (fun e => e.level == "INFO") + sc
        = au.countP (fun e => e.level == "INFO")
            + (bulkLoop oracle zn cs zone roll sc fc au).2.1 ∧
      (bulkLoop oracle zn cs zone roll sc fc au).2.2.2.countP (fun e => e.level == "ERROR")
          + fc.length + cs.countP changeMissing
        = au.countP (fun e => e.level == "ERROR")
            + (bulkLoop oracle zn cs zone roll sc fc au).2.2.1.length
  | [], zone, roll, sc, fc, au => by simp [bulkLoop]
  | change :: cs, zone, roll, sc, fc, au => by
    have cII : ∀ m u, List.countP (fun e => e.level == "INFO") [log_action "INFO" m u] = 1 :=
      fun _ _ => rfl
    have cIE : ∀ m u, List.countP (fun e => e.level == "ERROR") [log_action "INFO" m u] = 0 :=
      fun _ _ => rfl
    have cEI : ∀ m u, List.countP (fun e => e.level == "INFO") [log_action "ERROR" m u] = 0 :=
      fun _ _ => rfl
    have cEE : ∀ m u, List.countP (fun e => e.level == "ERROR") [log_action "ERROR" m u] = 1 :=
      fun _ _ => rfl
    simp only [bulkLoop]
    by_cases hmiss : changeMissing change = true
    · simp only [hmiss, eq_self_iff_true, if_true, List.countP_cons]
      have ih := bulkLoop_spec oracle zn cs zone roll sc
        (fc ++ [⟨change, "Missing data"⟩]) au
      simp only [List.length_append, List.length_cons, List.length_nil] at ih ⊢
      omega
    · have hm2 : changeMissing change = false := by simpa using hmiss
      simp only [hm2, Bool.false_eq_true, if_false, List.countP_cons]
      by_cases ho : oracle roll = true
      · simp only [ho, eq_self_iff_true, if_true]
        by_cases holdv : (change.old_value == "") = true
        · simp only [holdv, eq_self_iff_true, if_true]
          have ih := bulkLoop_spec oracle zn cs
            (zone ++ [⟨change.hostname, change.record_type, change.new_value⟩])
            (roll + 1) (sc + 1) fc
            (au ++ [log_action "INFO"
              s!"Bulk added record (simulated): {change.hostname} {change.record_type} {change.new_value} in {zn}"])
          simp only [List.length_append, List.countP_append, cII, cIE,
            List.length_cons, List.length_nil] at ih ⊢
          omega
        · have ho2 : (change.old_value == "") = false := by simpa using holdv
          simp only [ho2, Bool.false_eq_true, if_false]
          cases hupd : updateFirst change.hostname change.record_type change.old_value
              change.new_value zone with
          | some zone2 =>
              have ih := bulkLoop_spec oracle zn cs zone2 (roll + 1) (sc + 1) fc
                (au ++ [log_action "INFO"
                  s!"Bulk updated record (simulated): {change.hostname} {change.record_type} {change.old_value} -> {change.new_value} in {zn}"])
              simp only [List.length_append, List.countP_append, cII, cIE,
                List.length_cons, List.length_nil] at ih ⊢
              omega
          | none =>
              have ih := bulkLoop_spec oracle zn cs zone (roll + 1) sc
                (fc ++ [⟨change, "Record not found for update (simulated)"⟩])
                (au ++ [log_action "ERROR"
                  s!"Bulk update failed (record not found): {change.hostname} {change.record_type} {change.old_value} -> {change.new_value} in {zn}"])
              simp only [List.length_append, List.countP_append, cEI, cEE,
                List.length_cons, List.length_nil] at ih ⊢
              omega
      · have ho2 : oracle roll = false := by simpa using ho
        simp only [ho2, Bool.false_eq_true, if_false]
        have ih := bulkLoop_spec oracle zn cs zone (roll + 1) sc
          (fc ++ [⟨change, "Simulated failure"⟩])
          (au ++ [log_action "ERROR"
            s!"Bulk update failed (simulated): {change.hostname} {change.record_type} in {zn}"])
        simp only [List.length_append, List.countP_append, cEI, cEE,
          List.length_cons, List.length_nil] at ih ⊢
        omega

/-! ### Claim theorems -/

/-- C7: every `get_audit_logs` call appends exactly one extra INFO entry
("Audit logs requested.") to the audit log and returns the log (which
includes that entry) in append order, so the log grows by one per
`log_action` append plus one extra per `get_audit_logs` call. -/
theorem C7_get_audit_logs_self_logging (audit_log : List AuditEntry) :
    (get_audit_logs audit_log).2 = audit_log ++ [log_action "INFO" "Audit logs requested."] ∧
    (get_audit_logs audit_log).1 = (get_audit_logs audit_log).2 ∧
    (log_action "INFO" "Audit logs requested.").level = "INFO" ∧
    (get_audit_logs audit_log).2.length = audit_log.length + 1 ∧
    ∀ level message user : String,
      (audit_log ++ [log_action level message user]).length = audit_log.length + 1 := by
  refine ⟨rfl, rfl, rfl, by simp [get_audit_logs], fun _ _ _ => by simp⟩

/-- C6: with a non-empty change list on an existing zone, `bulk_update`
answers with status 200 no matter how many individual changes failed; the
failures appear only in the `failed_changes` list of the `done` response
(taken verbatim from the processing loop), never as an error status. -/
theorem C6_bulk_update_always_200 (oracle : Nat → Bool) (store : ZoneStore)
    (zone_name : String) (changes : List BulkChange) (records : List DnsRecord)
    (hne : changes ≠ [])
    (hz : lookupZone store zone_name = some records) :
    (bulk_update oracle store zone_name changes).1
        = BulkResult.done 200
            (bulkLoop oracle zone_name changes records 0 0 [] []).2.1
            (bulkLoop oracle zone_name changes records 0 0 [] []).2.2.1 ∧
    ∀ st sc fc, (bulk_update oracle store zone_name changes).1 = BulkResult.done st sc fc →
      st = 200 := by
  have hne2 : ¬(changes.isEmpty = true) := by
    simpa [List.isEmpty_iff] using hne
  constructor
  · unfold bulk_update
    rw [if_neg hne2, hz]
    dsimp only
    split <;> rfl
  · intro st sc fc h
    unfold bulk_update at h
    rw [if_neg hne2, hz] at h
    dsimp only at h
    revert h
    split <;> (intro h; cases h; rfl)

/-- C6 witness: a concrete call (one well-formed change, forced simulated
failure) still answers 200, with the failure carried in `failed_changes`. -/
theorem C6_bulk_update_always_200_witness :
    ([(⟨"a", "A", "1.2.3.4", ""⟩ : BulkChange)] ≠ []) ∧
    lookupZone [("z", [⟨"www", "A", "1.1.1.1"⟩])] "z" = some [⟨"www", "A", "1.1.1.1"⟩] ∧
    ((bulk_update (fun _ => false) [("z", [⟨"www", "A", "1.1.1.1"⟩])] "z"
          [⟨"a", "A", "1.2.3.4", ""⟩]).1
        = BulkResult.done 200
            (bulkLoop (fun _ => false) "z" [⟨"a", "A", "1.2.3.4", ""⟩]
              [⟨"www", "A", "1.1.1.1"⟩] 0 0 [] []).2.1
            (bulkLoop (fun _ => false) "z" [⟨"a", "A", "1.2.3.4", ""⟩]
              [⟨"www", "A", "1.1.1.1"⟩] 0 0 [] []).2.2.1 ∧
      ∀ st sc fc,
        (bulk_update (fun _ => false) [("z", [⟨"www", "A", "1.1.1.1"⟩])] "z"
            [⟨"a", "A", "1.2.3.4", ""⟩]).1 = BulkResult.done st sc fc → st = 200) :=
  ⟨by decide, by decide,
    C6_bulk_update_always_200 (fun _ => false) [("z", [⟨"www", "A", "1.1.1.1"⟩])] "z"
      [⟨"a", "A", "1.2.3.4", ""⟩] [⟨"www", "A", "1.1.1.1"⟩] (by decide) (by decide)⟩

/-- Success path of `add_record` on an existing zone with all fields
non-empty. -/
theorem add_record_success (store : ZoneStore)
    (zone_name hostname record_type value : String) (records : List DnsRecord)
    (h1 : hostname ≠ "") (h2 : record_type ≠ "") (h3 : value ≠ "")
    (hz : lookupZone store zone_name = some records) :
    add_record store zone_name hostname record_type value
      = (AddResult.created ⟨hostname, record_type, value⟩ 201,
         setZone store zone_name (records ++ [⟨hostname, record_type, value⟩]),
         [log_action "INFO"
           s!"Added record (simulated): {hostname} {record_type} {value} in {zone_name}"]) := by
  have hcond : ¬((hostname == "" || record_type == "" || value == "") = true) := by
    simp [h1, h2, h3]
  unfold add_record
  rw [if_neg hcond, hz]

/-- C5: `add_record` validates that hostname, type and value are non-empty
before any zone access — on a missing field it returns the validation error
with the store untouched (even when the zone does not exist) — and on success
appends the new record at the end of the zone with no duplicate check, so an
identical repeated add appends one more copy each time. -/
theorem C5_add_record_validate_then_append (store : ZoneStore)
    (zone_name hostname record_type value : String) :
    ((hostname = "" ∨ record_type = "" ∨ value = "") →
      add_record store zone_name hostname record_type value
        = (AddResult.validationError 400, store, [])) ∧
    (hostname ≠ "" → record_type ≠ "" → value ≠ "" →
      ∀ records, lookupZone store zone_name = some records →
        (add_record store zone_name hostname record_type value).1
            = AddResult.created ⟨hostname, record_type, value⟩ 201 ∧
        lookupZone (add_record store zone_name hostname record_type value).2.1 zone_name
            = some (records ++ [⟨hostname, record_type, value⟩]) ∧
        (records ++ [(⟨hostname, record_type, value⟩ : DnsRecord)]).count
              ⟨hostname, record_type, value⟩
            = records.count ⟨hostname, record_type, value⟩ + 1) := by
  constructor
  · intro hmiss
    have hcond : (hostname == "" || record_type == "" || value == "") = true := by
      rcases hmiss with h | h | h <;> simp [h]
    unfold add_record
    rw [if_pos hcond]
  · intro h1 h2 h3 records hz
    rw [add_record_success store zone_name hostname record_type value records h1 h2 h3 hz]
    refine ⟨rfl, ?_, by simp⟩
    exact lookupZone_setZone_self store zone_name _ (by rw [hz]; rfl)

/-- C5 witness: adding a record with an empty value on a missing zone fails
fast; adding a well-formed duplicate of `www` appends a second copy. -/
theorem C5_add_record_validate_then_append_witness :
    (add_record [("z", [⟨"www", "A", "1.1.1.1"⟩])] "nozone" "a" "A" ""
        = (AddResult.validationError 400, [("z", [⟨"www", "A", "1.1.1.1"⟩])], [])) ∧
    ((add_record [("z", [⟨"www", "A", "1.1.1.1"⟩])] "z" "www" "A" "1.1.1.1").1
        = AddResult.created ⟨"www", "A", "1.1.1.1"⟩ 201 ∧
      lookupZone (add_record [("z", [⟨"www", "A", "1.1.1.1"⟩])] "z" "www" "A" "1.1.1.1").2.1 "z"
        = some [⟨"www", "A", "1.1.1.1"⟩, ⟨"www", "A", "1.1.1.1"⟩] ∧
      ([(⟨"www", "A", "1.1.1.1"⟩ : DnsRecord), ⟨"www", "A", "1.1.1.1"⟩]).count
          ⟨"www", "A", "1.1.1.1"⟩
        = [(⟨"www", "A", "1.1.1.1"⟩ : DnsRecord)].count ⟨"www", "A", "1.1.1.1"⟩ + 1) :=
  ⟨(C5_add_record_validate_then_append [("z", [⟨"www", "A", "1.1.1.1"⟩])] "nozone" "a" "A" "").1
      (Or.inr (Or.inr rfl)),
    (C5_add_record_validate_then_append [("z", [⟨"www", "A", "1.1.1.1"⟩])] "z"
        "www" "A" "1.1.1.1").2
      (by decide) (by decide) (by decide) [⟨"www", "A", "1.1.1.1"⟩] (by decide)⟩

/-- With `record_type = "All"` and an empty search term, the `get_records`
filter accepts every record. -/
theorem recordMatches_all_empty (r : DnsRecord) :
    recordMatches "All" (strLower "") r = true := rfl

/-- `get_records` with no filters on an existing zone returns the zone's
record list unchanged. -/
theorem get_records_unfiltered (store : ZoneStore) (zone_name : String)
    (records : List DnsRecord) (hz : lookupZone store zone_name = some records) :
    (get_records store zone_name "All" "").1 = GetRecordsResult.ok records 200 := by
  unfold get_records
  rw [hz]
  dsimp only
  rw [foldl_append_filter (fun record => recordMatches "All" (strLower "") record) records [],
    List.nil_append, List.filter_eq_self.mpr (fun a _ => recordMatches_all_empty a)]

/-- C8: on an existing zone, a successful `add_record` of a well-formed
record R followed by an unfiltered `get_records` returns R exactly once more
than an unfiltered `get_records` before the add. -/
theorem C8_add_then_list_counts (store : ZoneStore)
    (zone_name hostname record_type value : String) (records : List DnsRecord)
    (h1 : hostname ≠ "") (h2 : record_type ≠ "") (h3 : value ≠ "")
    (hz : lookupZone store zone_name = some records) :
    ∃ before after : List DnsRecord,
      (get_records store zone_name "All" "").1 = GetRecordsResult.ok before 200 ∧
      (get_records (add_record store zone_name hostname record_type value).2.1
          zone_name "All" "").1 = GetRecordsResult.ok after 200 ∧
      after.count ⟨hostname, record_type, value⟩
        = before.count ⟨hostname, record_type, value⟩ + 1 := by
  have hafter :
      lookupZone (add_record store zone_name hostname record_type value).2.1 zone_name
        = some (records ++ [⟨hostname, record_type, value⟩]) := by
    rw [add_record_success store zone_name hostname record_type value records h1 h2 h3 hz]
    exact lookupZone_setZone_self store zone_name _ (by rw [hz]; rfl)
  exact ⟨records, records ++ [⟨hostname, record_type, value⟩],
    get_records_unfiltered store zone_name records hz,
    get_records_unfiltered _ zone_name _ hafter,
    by simp⟩

/-- C8 witness: adding `new A 10.0.0.1` to a one-record zone makes the
unfiltered listing contain it exactly once more than before. -/
theorem C8_add_then_list_counts_witness :
    (("new" : String) ≠ "") ∧
    lookupZone [("z", [⟨"www", "A", "1.1.1.1"⟩])] "z" = some [⟨"www", "A", "1.1.1.1"⟩] ∧
    ∃ before after : List DnsRecord,
      (get_records [("z", [⟨"www", "A", "1.1.1.1"⟩])] "z" "All" "").1
          = GetRecordsResult.ok before 200 ∧
      (get_records (add_record [("z", [⟨"www", "A", "1.1.1.1"⟩])] "z" "new" "A" "10.0.0.1").2.1
          "z" "All" "").1 = GetRecordsResult.ok after 200 ∧
      after.count ⟨"new", "A", "10.0.0.1"⟩ = before.count ⟨"new", "A", "10.0.0.1"⟩ + 1 :=
  ⟨by decide, by decide,
    C8_add_then_list_counts [("z", [⟨"www", "A", "1.1.1.1"⟩])] "z" "new" "A" "10.0.0.1"
      [⟨"www", "A", "1.1.1.1"⟩] (by decide) (by decide) (by decide) (by decide)⟩

/-- C4: on an existing zone, `get_records` returns exactly the records that
pass both filters, in stored order (the result is a sublist of the zone);
the type filter passes when the filter is `"All"` or equals the record type,
and the search filter passes when the search term is empty or is a
case-insensitive substring of hostname or value. -/
theorem C4_get_records_filters (store : ZoneStore) (zone_name tf raw : String)
    (records : List DnsRecord) (hz : lookupZone store zone_name = some records) :
    (get_records store zone_name tf raw).1
        = GetRecordsResult.ok (records.filter (recordMatches tf (strLower raw))) 200 ∧
    (records.filter (recordMatches tf (strLower raw))).Sublist records ∧
    ∀ r : DnsRecord,
      recordMatches tf (strLower raw) r = true ↔
        ((tf = "All" ∨ r.record_type = tf) ∧
          (raw = "" ∨ raw.toLower.data <:+: r.hostname.toLower.data
            ∨ raw.toLower.data <:+: r.value.toLower.data)) := by
  refine ⟨?_, List.filter_sublist records, ?_⟩
  · unfold get_records
    rw [hz]
    dsimp only
    rw [foldl_append_filter (fun record => recordMatches tf (strLower raw) record) records [],
      List.nil_append]
  · intro r
    rw [show recordMatches tf (strLower raw) r =
        ((tf == "All" || r.record_type == tf) &&
          (strLower raw == "" || strContains (strLower raw) (strLower r.hostname)
            || strContains (strLower raw) (strLower r.value))) from rfl]
    simp only [Bool.and_eq_true, Bool.or_eq_true, beq_iff_eq, strContains_iff,
      strLower_eq_toLower, toLower_empty_iff]
    tauto

/-- C4 witness: filtering a one-record zone by type `A` and search term
`WWW` keeps the `www` record, and the filter predicate decomposes as
claimed at that record. -/
theorem C4_get_records_filters_witness :
    lookupZone [("z", [⟨"www", "A", "192.168.1.100"⟩])] "z"
        = some [⟨"www", "A", "192.168.1.100"⟩] ∧
    (get_records [("z", [⟨"www", "A", "192.168.1.100"⟩])] "z" "A" "WWW").1
        = GetRecordsResult.ok
            ([(⟨"www", "A", "192.168.1.100"⟩ : DnsRecord)].filter
              (recordMatches "A" (strLower "WWW"))) 200 ∧
    (recordMatches "A" (strLower "WWW") ⟨"www", "A", "192.168.1.100"⟩ = true ↔
      ((("A" : String) = "All" ∨ ("A" : String) = "A") ∧
        (("WWW" : String) = "" ∨ ("WWW" : String).toLower.data <:+: ("www" : String).toLower.data
          ∨ ("WWW" : String).toLower.data <:+: ("192.168.1.100" : String).toLower.data))) :=
  ⟨by decide,
    (C4_get_records_filters [("z", [⟨"www", "A", "192.168.1.100"⟩])] "z" "A" "WWW"
      [⟨"www", "A", "192.168.1.100"⟩] (by decide)).1,
    (C4_get_records_filters [("z", [⟨"www", "A", "192.168.1.100"⟩])] "z" "A" "WWW"
      [⟨"www", "A", "192.168.1.100"⟩] (by decide)).2.2 ⟨"www", "A", "192.168.1.100"⟩⟩

/-- C3: with all four fields non-empty on an existing zone, `update_record`
rewrites the value of the first record matching (hostname, type, oldValue)
exactly and case-sensitively, leaving every earlier and later record as it
was (even duplicates of the match); with no matching record it returns
RecordNotFound. -/
theorem C3_update_record_first_match (store : ZoneStore)
    (zone_name hostname record_type old_value new_value : String)
    (records : List DnsRecord)
    (h1 : hostname ≠ "") (h2 : record_type ≠ "") (h3 : old_value ≠ "") (h4 : new_value ≠ "")
    (hz : lookupZone store zone_name = some records) :
    ((∀ r ∈ records,
        ¬(r.hostname = hostname ∧ r.record_type = record_type ∧ r.value = old_value)) →
      (update_record store zone_name hostname record_type old_value new_value).1
        = UpdateResult.recordNotFound 404) ∧
    (∀ (l₁ : List DnsRecord) (r : DnsRecord) (l₂ : List DnsRecord),
      records = l₁ ++ r :: l₂ →
      (∀ r2 ∈ l₁,
        ¬(r2.hostname = hostname ∧ r2.record_type = record_type ∧ r2.value = old_value)) →
      r.hostname = hostname → r.record_type = record_type → r.value = old_value →
      (update_record store zone_name hostname record_type old_value new_value).1
          = UpdateResult.updated 200 ∧
      lookupZone (update_record store zone_name hostname record_type old_value new_value).2.1
          zone_name
        = some (l₁ ++ { r with value := new_value } :: l₂)) := by
  have hcond :
      ¬((hostname == "" || record_type == "" || old_value == "" || new_value == "") = true) := by
    simp [h1, h2, h3, h4]
  constructor
  · intro hnone
    have hupd : updateFirst hostname record_type old_value new_value records = none :=
      (updateFirst_eq_none_iff hostname record_type old_value new_value records).mpr hnone
    unfold update_record
    rw [if_neg hcond, hz]
    dsimp only
    rw [hupd]
  · intro l₁ r l₂ hsplit hl₁ hh ht hv
    have hupd : updateFirst hostname record_type old_value new_value records
        = some (l₁ ++ { r with value := new_value } :: l₂) := by
      rw [hsplit]
      exact updateFirst_append hostname record_type old_value new_value l₁ r l₂ hl₁ hh ht hv
    unfold update_record
    rw [if_neg hcond, hz]
    dsimp only
    rw [hupd]
    exact ⟨rfl, lookupZone_setZone_self store zone_name _ (by rw [hz]; rfl)⟩

/-- C3 witness: in a zone holding two identical `www` records, updating
`www A 1.1.1.1 -> 9.9.9.9` rewrites only the first copy; updating a triple
that is absent returns RecordNotFound. -/
theorem C3_update_record_first_match_witness :
    (("www" : String) ≠ "") ∧
    lookupZone [("z", [⟨"www", "A", "1.1.1.1"⟩, ⟨"www", "A", "1.1.1.1"⟩])] "z"
        = some [⟨"www", "A", "1.1.1.1"⟩, ⟨"www", "A", "1.1.1.1"⟩] ∧
    ((update_record [("z", [⟨"www", "A", "1.1.1.1"⟩, ⟨"www", "A", "1.1.1.1"⟩])] "z"
          "www" "A" "1.1.1.1" "9.9.9.9").1 = UpdateResult.updated 200 ∧
      lookupZone (update_record [("z", [⟨"www", "A", "1.1.1.1"⟩, ⟨"www", "A", "1.1.1.1"⟩])] "z"
            "www" "A" "1.1.1.1" "9.9.9.9").2.1 "z"
        = some [⟨"www", "A", "9.9.9.9"⟩, ⟨"www", "A", "1.1.1.1"⟩]) ∧
    (update_record [("z", [⟨"www", "A", "1.1.1.1"⟩, ⟨"www", "A", "1.1.1.1"⟩])] "z"
          "ghost" "A" "1.1.1.1" "9.9.9.9").1 = UpdateResult.recordNotFound 404 :=
  ⟨by decide, by decide,
    (C3_update_record_first_match [("z", [⟨"www", "A", "1.1.1.1"⟩, ⟨"www", "A", "1.1.1.1"⟩])]
        "z" "www" "A" "1.1.1.1" "9.9.9.9" [⟨"www", "A", "1.1.1.1"⟩, ⟨"www", "A", "1.1.1.1"⟩]
        (by decide) (by decide) (by decide) (by decide) (by decide)).2
      [] ⟨"www", "A", "1.1.1.1"⟩ [⟨"www", "A", "1.1.1.1"⟩] rfl (by simp) rfl rfl rfl,
    (C3_update_record_first_match [("z", [⟨"www", "A", "1.1.1.1"⟩, ⟨"www", "A", "1.1.1.1"⟩])]
        "z" "ghost" "A" "1.1.1.1" "9.9.9.9" [⟨"www", "A", "1.1.1.1"⟩, ⟨"www", "A", "1.1.1.1"⟩]
        (by decide) (by decide) (by decide) (by decide) (by decide)).1 (by decide)⟩

/-- C2: on a non-empty batch against an existing zone, each requested record
independently removes every entry matching its exact triple (a step's
success flag is set exactly when the zone shrank, i.e. when a match
existed); the response is `done` with status 202 iff some sub-deletion
failed (200 when none did), always carrying the deleted count, and deleted
count plus failure count equals the batch size; the zone ends as the
original list filtered by all requested triples. -/
theorem C2_delete_records_batch (store : ZoneStore) (zone_name : String)
    (records_to_delete records : List DnsRecord)
    (hne : records_to_delete ≠ [])
    (hz : lookupZone store zone_name = some records) :
    ∃ (deleted_count : Nat) (failed_deletions : List DnsRecord),
      (delete_records store zone_name records_to_delete).1
          = DeleteResult.done (if failed_deletions = [] then 200 else 202)
              deleted_count failed_deletions ∧
      deleted_count + failed_deletions.length = records_to_delete.length ∧
      lookupZone (delete_records store zone_name records_to_delete).2.1 zone_name
          = some (records.filter
              (fun r => records_to_delete.all (fun d => !(tripleMatch d r)))) ∧
      (∀ (d : DnsRecord) (zone : List DnsRecord),
        (deleteStep d zone).1 = zone.filter (fun r => !(tripleMatch d r)) ∧
        ((deleteStep d zone).2 = true ↔ ∃ r ∈ zone, tripleMatch d r = true)) := by
  have hne2 : ¬(records_to_delete.isEmpty = true) := by
    simpa [List.isEmpty_iff] using hne
  refine ⟨(deleteLoop zone_name records_to_delete records 0 [] []).2.1,
    (deleteLoop zone_name records_to_delete records 0 [] []).2.2.1, ?_, ?_, ?_, ?_⟩
  · unfold delete_records
    rw [if_neg hne2, hz]
    dsimp only
    by_cases hf : (deleteLoop zone_name records_to_delete records 0 [] []).2.2.1.isEmpty
    · rw [if_pos hf]
      have : (deleteLoop zone_name records_to_delete records 0 [] []).2.2.1 = [] := by
        simpa [List.isEmpty_iff] using hf
      rw [if_pos this]
    · rw [if_neg hf]
      have : ¬((deleteLoop zone_name records_to_delete records 0 [] []).2.2.1 = []) := by
        simpa [List.isEmpty_iff] using hf
      rw [if_neg this]
  · have := deleteLoop_count zone_name records_to_delete records 0 [] []
    simpa using this
  · unfold delete_records
    rw [if_neg hne2, hz]
    dsimp only
    have hzone := deleteLoop_fst zone_name records_to_delete records 0 [] []
    split <;>
      (dsimp only; rw [← hzone];
        exact lookupZone_setZone_self store zone_name _ (by rw [hz]; rfl))
  · exact fun d zone => ⟨deleteStep_fst d zone, deleteStep_snd_iff d zone⟩

/-- C2 witness: deleting `www` (present twice) and `ghost` (absent) from a
three-record zone removes both `www` copies, reports one success and one
failure, and answers 202. -/
theorem C2_delete_records_batch_witness :
    ([(⟨"www", "A", "1.1.1.1"⟩ : DnsRecord), ⟨"ghost", "A", "9.9.9.9"⟩] ≠ []) ∧
    lookupZone [("z", [⟨"www", "A", "1.1.1.1"⟩, ⟨"dev", "A", "2.2.2.2"⟩,
          ⟨"www", "A", "1.1.1.1"⟩])] "z"
        = some [⟨"www", "A", "1.1.1.1"⟩, ⟨"dev", "A", "2.2.2.2"⟩, ⟨"www", "A", "1.1.1.1"⟩] ∧
    (delete_records [("z", [⟨"www", "A", "1.1.1.1"⟩, ⟨"dev", "A", "2.2.2.2"⟩,
          ⟨"www", "A", "1.1.1.1"⟩])] "z"
        [⟨"www", "A", "1.1.1.1"⟩, ⟨"ghost", "A", "9.9.9.9"⟩]).1
      = DeleteResult.done 202 1 [⟨"ghost", "A", "9.9.9.9"⟩] ∧
    lookupZone (delete_records [("z", [⟨"www", "A", "1.1.1.1"⟩, ⟨"dev", "A", "2.2.2.2"⟩,
          ⟨"www", "A", "1.1.1.1"⟩])] "z"
        [⟨"www", "A", "1.1.1.1"⟩, ⟨"ghost", "A", "9.9.9.9"⟩]).2.1 "z"
      = some [⟨"dev", "A", "2.2.2.2"⟩] := by
  refine ⟨by decide, by decide, by decide, ?_⟩
  · obtain ⟨dc, fd, -, -, h3, -⟩ :=
      C2_delete_records_batch [("z", [⟨"www", "A", "1.1.1.1"⟩, ⟨"dev", "A", "2.2.2.2"⟩,
          ⟨"www", "A", "1.1.1.1"⟩])] "z"
        [⟨"www", "A", "1.1.1.1"⟩, ⟨"ghost", "A", "9.9.9.9"⟩]
        [⟨"www", "A", "1.1.1.1"⟩, ⟨"dev", "A", "2.2.2.2"⟩, ⟨"www", "A", "1.1.1.1"⟩]
        (by decide) (by decide)
    have : ([(⟨"www", "A", "1.1.1.1"⟩ : DnsRecord), ⟨"dev", "A", "2.2.2.2"⟩,
        ⟨"www", "A", "1.1.1.1"⟩].filter
          (fun r => [(⟨"www", "A", "1.1.1.1"⟩ : DnsRecord),
            ⟨"ghost", "A", "9.9.9.9"⟩].all (fun d => !(tripleMatch d r))))
        = [⟨"dev", "A", "2.2.2.2"⟩] := by decide
    rw [this] at h3
    exact h3

/-- A write addressed to zone `zn` preserves every other zone's record list
and the store's key sequence (no zone key is created or removed). -/
def storePreserves (store store2 : ZoneStore) (zn : String) : Prop :=
  (∀ z2, z2 ≠ zn → lookupZone store2 z2 = lookupZone store z2) ∧
  store2.map Prod.fst = store.map Prod.fst

theorem storePreserves_self (store : ZoneStore) (zn : String) :
    storePreserves store store zn :=
  ⟨fun _ _ => rfl, rfl⟩

theorem storePreserves_setZone (store : ZoneStore) (zn : String) (rs : List DnsRecord) :
    storePreserves store (setZone store zn rs) zn :=
  ⟨fun z2 h => lookupZone_setZone_ne store zn z2 rs h, map_fst_setZone store zn rs⟩

/-- C9: every write operation addressed to a zone leaves all other zones'
record lists unchanged and keeps the store's zone-key sequence exactly as it
was — no operation creates or removes a zone key. -/
theorem C9_frame_other_zones (store : ZoneStore) (zone_name : String) :
    (∀ hostname record_type value,
      storePreserves store
        (add_record store zone_name hostname record_type value).2.1 zone_name) ∧
    (∀ hostname record_type old_value new_value,
      storePreserves store
        (update_record store zone_name hostname record_type old_value new_value).2.1
        zone_name) ∧
    (∀ records_to_delete,
      storePreserves store
        (delete_records store zone_name records_to_delete).2.1 zone_name) ∧
    (∀ (oracle : Nat → Bool) changes,
      storePreserves store
        (bulk_update oracle store zone_name changes).2.1 zone_name) := by
  refine ⟨?_, ?_, ?_, ?_⟩
  · intro hostname record_type value
    unfold add_record
    by_cases hc : (hostname == "" || record_type == "" || value == "") = true
    · rw [if_pos hc]
      exact storePreserves_self store zone_name
    · rw [if_neg hc]
      cases hz : lookupZone store zone_name with
      | none => exact storePreserves_self store zone_name
      | some records => exact storePreserves_setZone store zone_name _
  · intro hostname record_type old_value new_value
    unfold update_record
    by_cases hc :
        (hostname == "" || record_type == "" || old_value == "" || new_value == "") = true
    · rw [if_pos hc]
      exact storePreserves_self store zone_name
    · rw [if_neg hc]
      cases hz : lookupZone store zone_name with
      | none => exact storePreserves_self store zone_name
      | some records =>
          dsimp only
          cases hupd : updateFirst hostname record_type old_value new_value records with
          | none => exact storePreserves_self store zone_name
          | some records2 => exact storePreserves_setZone store zone_name _
  · intro records_to_delete
    unfold delete_records
    by_cases hc : records_to_delete.isEmpty = true
    · rw [if_pos hc]
      exact storePreserves_self store zone_name
    · rw [if_neg hc]
      cases hz : lookupZone store zone_name with
      | none => exact storePreserves_self store zone_name
      | some records =>
          dsimp only
          split <;> exact storePreserves_setZone store zone_name _
  · intro oracle changes
    unfold bulk_update
    by_cases hc : changes.isEmpty = true
    · rw [if_pos hc]
      exact storePreserves_self store zone_name
    · rw [if_neg hc]
      cases hz : lookupZone store zone_name with
      | none => exact storePreserves_self store zone_name
      | some records =>
          dsimp only
          split <;> exact storePreserves_setZone store zone_name _

/-- C9 witness: a successful add to zone `z` leaves zone `w` and the key
sequence untouched. -/
theorem C9_frame_other_zones_witness :
    (("w" : String) ≠ "z") ∧
    lookupZone (add_record [("z", [⟨"www", "A", "1.1.1.1"⟩]), ("w", [⟨"dev", "A", "2.2.2.2"⟩])]
          "z" "new" "A" "3.3.3.3").2.1 "w"
      = lookupZone [("z", [⟨"www", "A", "1.1.1.1"⟩]), ("w", [⟨"dev", "A", "2.2.2.2"⟩])] "w" ∧
    ((add_record [("z", [⟨"www", "A", "1.1.1.1"⟩]), ("w", [⟨"dev", "A", "2.2.2.2"⟩])]
          "z" "new" "A" "3.3.3.3").2.1).map Prod.fst
      = [("z", [(⟨"www", "A", "1.1.1.1"⟩ : DnsRecord)]),
          ("w", [⟨"dev", "A", "2.2.2.2"⟩])].map Prod.fst :=
  ⟨by decide,
    ((C9_frame_other_zones [("z", [⟨"www", "A", "1.1.1.1"⟩]), ("w", [⟨"dev", "A", "2.2.2.2"⟩])]
        "z").1 "new" "A" "3.3.3.3").1 "w" (by decide),
    ((C9_frame_other_zones [("z", [⟨"www", "A", "1.1.1.1"⟩]), ("w", [⟨"dev", "A", "2.2.2.2"⟩])]
        "z").1 "new" "A" "3.3.3.3").2⟩

/-- C10: when `update_record` answers RecordNotFound the store is returned
unchanged, and when a bulk change with `old_value` present reaches the
update path but matches no record, the processing loop continues with the
zone list unchanged, only recording the failure (and one ERROR entry). -/
theorem C10_record_not_found_no_mutation :
    (∀ (store : ZoneStore) (zone_name hostname record_type old_value new_value : String) st,
      (update_record store zone_name hostname record_type old_value new_value).1
          = UpdateResult.recordNotFound st →
      (update_record store zone_name hostname record_type old_value new_value).2.1 = store) ∧
    (∀ (oracle : Nat → Bool) (zone_name : String) (c : BulkChange) (rest : List BulkChange)
        (zone : List DnsRecord) (roll sc : Nat) (fc : List FailedChange)
        (au : List AuditEntry),
      changeMissing c = false → oracle roll = true → ¬(c.old_value = "") →
      (∀ r ∈ zone,
        ¬(r.hostname = c.hostname ∧ r.record_type = c.record_type ∧ r.value = c.old_value)) →
      ∃ e : AuditEntry, e.level = "ERROR" ∧
        bulkLoop oracle zone_name (c :: rest) zone roll sc fc au
          = bulkLoop oracle zone_name rest zone (roll + 1) sc
              (fc ++ [⟨c, "Record not found for update (simulated)"⟩]) (au ++ [e])) := by
  constructor
  · intro store zone_name hostname record_type old_value new_value st
    unfold update_record
    by_cases hc :
        (hostname == "" || record_type == "" || old_value == "" || new_value == "") = true
    · rw [if_pos hc]
      intro h
      exact absurd h (by simp)
    · rw [if_neg hc]
      cases hz : lookupZone store zone_name with
      | none =>
          intro h
          exact absurd h (by simp)
      | some records =>
          dsimp only
          cases hupd : updateFirst hostname record_type old_value new_value records with
          | none => intro h; rfl
          | some records2 =>
              intro h
              exact absurd h (by simp)
  · intro oracle zone_name c rest zone roll sc fc au hmiss ho hold hno
    have hupd : updateFirst c.hostname c.record_type c.old_value c.new_value zone = none :=
      (updateFirst_eq_none_iff c.hostname c.record_type c.old_value c.new_value zone).mpr hno
    refine ⟨log_action "ERROR"
      s!"Bulk update failed (record not found): {c.hostname} {c.record_type} {c.old_value} -> {c.new_value} in {zone_name}",
      rfl, ?_⟩
    simp only [bulkLoop]
    rw [if_neg (by simp [hmiss]), if_pos ho, if_neg (by simpa using hold), hupd]

/-- C10 witness: a failed update of an absent `ghost` record hands back the
store unchanged, and the corresponding bulk change only records its failure
while the zone list passes through unchanged. -/
theorem C10_record_not_found_no_mutation_witness :
    ((update_record [("z", [⟨"www", "A", "1.1.1.1"⟩])] "z" "ghost" "A" "1.1.1.1" "2.2.2.2").1
        = UpdateResult.recordNotFound 404) ∧
    ((update_record [("z", [⟨"www", "A", "1.1.1.1"⟩])] "z" "ghost" "A" "1.1.1.1" "2.2.2.2").2.1
        = [("z", [⟨"www", "A", "1.1.1.1"⟩])]) ∧
    changeMissing ⟨"ghost", "A", "2.2.2.2", "1.1.1.1"⟩ = false ∧
    (∃ e : AuditEntry, e.level = "ERROR" ∧
      bulkLoop (fun _ => true) "z" [⟨"ghost", "A", "2.2.2.2", "1.1.1.1"⟩]
          [⟨"www", "A", "9.9.9.9"⟩] 0 0 [] []
        = bulkLoop (fun _ => true) "z" [] [⟨"www", "A", "9.9.9.9"⟩] (0 + 1) 0
            [⟨⟨"ghost", "A", "2.2.2.2", "1.1.1.1"⟩, "Record not found for update (simulated)"⟩]
            ([] ++ [e])) :=
  ⟨by decide,
    C10_record_not_found_no_mutation.1 [("z", [⟨"www", "A", "1.1.1.1"⟩])] "z"
      "ghost" "A" "1.1.1.1" "2.2.2.2" 404 (by decide),
    by decide,
    C10_record_not_found_no_mutation.2 (fun _ => true) "z"
      ⟨"ghost", "A", "2.2.2.2", "1.1.1.1"⟩ [] [⟨"www", "A", "9.9.9.9"⟩] 0 0 [] []
      (by decide) rfl (by decide) (by decide)⟩

/-- C1 counterexample: a bulk change rejected for missing data is processed
(it is appended to `failed_changes` of the response) yet appends no audit
entry at all — not the exactly one entry the claim requires. -/
theorem C1_counterexample_missing_data_change_logs_nothing :
    (bulk_update (fun _ => true) dns_data "example.com" [⟨"", "A", "1.1.1.1", ""⟩]).1
        = BulkResult.done 200 0 [⟨⟨"", "A", "1.1.1.1", ""⟩, "Missing data"⟩] ∧
    (bulk_update (fun _ => true) dns_data "example.com" [⟨"", "A", "1.1.1.1", ""⟩]).2.2 = [] ∧
    ¬((bulk_update (fun _ => true) dns_data "example.com"
        [⟨"", "A", "1.1.1.1", ""⟩]).2.2.length = 1) := by
  decide

/-- C1 (amended): the audit discipline the code actually implements.
`connect` appends one "attempting" INFO entry and then exactly one outcome
entry (INFO on success, ERROR on failure); `get_records` appends exactly one
INFO entry on success and exactly one WARNING (not ERROR) entry on a missing
zone; `add_record` and `update_record` append nothing on their validation
and zone-not-found error paths, one INFO entry on success, and (for update)
one ERROR entry when the record is not found; `delete_records` appends
exactly one entry per requested record (INFO entries matching the deleted
count, ERROR entries matching the failure count) and nothing on its early
error paths; `bulk_update` appends exactly one entry per change that passes
the missing-data check and none for a change rejected for missing data
(INFO entries matching the success count, ERROR entries matching the other
failures), and nothing on its early error paths; `get_audit_logs` appends
exactly one INFO entry. -/
theorem C1_audit_discipline_amended :
    (∀ (store : ZoneStore) (dns_server username password : String),
      (∀ zs st, (connect store dns_server username password).1 = ConnectResult.ok zs st →
        (connect store dns_server username password).2.map AuditEntry.level
          = ["INFO", "INFO"]) ∧
      (∀ st, (connect store dns_server username password).1 = ConnectResult.authError st →
        (connect store dns_server username password).2.map AuditEntry.level
          = ["INFO", "ERROR"])) ∧
    (∀ (store : ZoneStore) (zn tf raw : String),
      (lookupZone store zn = none →
        (get_records store zn tf raw).2.map AuditEntry.level = ["WARNING"]) ∧
      (∀ records, lookupZone store zn = some records →
        (get_records store zn tf raw).2.map AuditEntry.level = ["INFO"])) ∧
    (∀ (store : ZoneStore) (zn h t v : String),
      (∀ st, (add_record store zn h t v).1 = AddResult.validationError st →
        (add_record store zn h t v).2.2 = []) ∧
      (∀ st, (add_record store zn h t v).1 = AddResult.zoneNotFound st →
        (add_record store zn h t v).2.2 = []) ∧
      (∀ r st, (add_record store zn h t v).1 = AddResult.created r st →
        (add_record store zn h t v).2.2.map AuditEntry.level = ["INFO"])) ∧
    (∀ (store : ZoneStore) (zn h t ov nv : String),
      (∀ st, (update_record store zn h t ov nv).1 = UpdateResult.validationError st →
        (update_record store zn h t ov nv).2.2 = []) ∧
      (∀ st, (update_record store zn h t ov nv).1 = UpdateResult.zoneNotFound st →
        (update_record store zn h t ov nv).2.2 = []) ∧
      (∀ st, (update_record store zn h t ov nv).1 = UpdateResult.updated st →
        (update_record store zn h t ov nv).2.2.map AuditEntry.level = ["INFO"]) ∧
      (∀ st, (update_record store zn h t ov nv).1 = UpdateResult.recordNotFound st →
        (update_record store zn h t ov nv).2.2.map AuditEntry.level = ["ERROR"])) ∧
    (∀ (store : ZoneStore) (zn : String) (ds records : List DnsRecord) (st dc : Nat)
        (fd : List DnsRecord),
      ds ≠ [] → lookupZone store zn = some records →
      (delete_records store zn ds).1 = DeleteResult.done st dc fd →
      (delete_records store zn ds).2.2.length = ds.length ∧
      (delete_records store zn ds).2.2.countP (fun e => e.level == "INFO") = dc ∧
      (delete_records store zn ds).2.2.countP (fun e => e.level == "ERROR") = fd.length) ∧
    (∀ (store : ZoneStore) (zn : String) (ds : List DnsRecord) (st : Nat),
      (delete_records store zn ds).1 = DeleteResult.validationError st ∨
        (delete_records store zn ds).1 = DeleteResult.zoneNotFound st →
      (delete_records store zn ds).2.2 = []) ∧
    (∀ (oracle : Nat → Bool) (store : ZoneStore) (zn : String) (cs : List BulkChange)
        (records : List DnsRecord) (st sc : Nat) (fc : List FailedChange),
      cs ≠ [] → lookupZone store zn = some records →
      (bulk_update oracle store zn cs).1 = BulkResult.done st sc fc →
      (bulk_update oracle store zn cs).2.2.length + cs.countP changeMissing = cs.length ∧
      (bulk_update oracle store zn cs).2.2.countP (fun e => e.level == "INFO") = sc ∧
      (bulk_update oracle store zn cs).2.2.countP (fun e => e.level == "ERROR")
          + cs.countP changeMissing = fc.length) ∧
    (∀ (oracle : Nat → Bool) (store : ZoneStore) (zn : String) (cs : List BulkChange)
        (st : Nat),
      (bulk_update oracle store zn cs).1 = BulkResult.validationError st ∨
        (bulk_update oracle store zn cs).1 = BulkResult.zoneNotFound st →
      (bulk_update oracle store zn cs).2.2 = []) ∧
    (∀ audit_log : List AuditEntry,
      (get_audit_logs audit_log).2
          = audit_log ++ [log_action "INFO" "Audit logs requested."] ∧
      (log_action "INFO" "Audit logs requested.").level = "INFO") := by
  refine ⟨?_, ?_, ?_, ?_, ?_, ?_, ?_, ?_, fun _ => ⟨rfl, rfl⟩⟩
  · intro store dns_server username password
    unfold connect
    by_cases hcred : (username == "admin@example.com" && password == "password") = true
    · rw [if_pos hcred]
      exact ⟨fun _ _ _ => rfl, fun st h => absurd h (by simp)⟩
    · rw [if_neg hcred]
      exact ⟨fun _ _ h => absurd h (by simp), fun _ _ => rfl⟩
  · intro store zn tf raw
    unfold get_records
    cases hz : lookupZone store zn with
    | none => exact ⟨fun _ => rfl, fun records h => absurd h (by simp)⟩
    | some records => exact ⟨fun h => absurd h (by simp), fun _ _ => rfl⟩
  · intro store zn h t v
    unfold add_record
    by_cases hc : (h == "" || t == "" || v == "") = true
    · rw [if_pos hc]
      exact ⟨fun _ _ => rfl, fun st hh => absurd hh (by simp),
        fun _ _ hh => absurd hh (by simp)⟩
    · rw [if_neg hc]
      cases hz : lookupZone store zn with
      | none =>
          exact ⟨fun _ hh => absurd hh (by simp), fun _ _ => rfl,
            fun _ _ hh => absurd hh (by simp)⟩
      | some records =>
          exact ⟨fun _ hh => absurd hh (by simp), fun _ hh => absurd hh (by simp),
            fun _ _ _ => rfl⟩
  · intro store zn h t ov nv
    unfold update_record
    by_cases hc : (h == "" || t == "" || ov == "" || nv == "") = true
    · rw [if_pos hc]
      exact ⟨fun _ _ => rfl, fun _ hh => absurd hh (by simp),
        fun _ hh => absurd hh (by simp), fun _ hh => absurd hh (by simp)⟩
    · rw [if_neg hc]
      cases hz : lookupZone store zn with
      | none =>
          exact ⟨fun _ hh => absurd hh (by simp), fun _ _ => rfl,
            fun _ hh => absurd hh (by simp), fun _ hh => absurd hh (by simp)⟩
      | some records =>
          dsimp only
          cases hupd : updateFirst h t ov nv records with
          | some records2 =>
              exact ⟨fun _ hh => absurd hh (by simp), fun _ hh => absurd hh (by simp),
                fun _ _ => rfl, fun _ hh => absurd hh (by simp)⟩
          | none =>
              exact ⟨fun _ hh => absurd hh (by simp), fun _ hh => absurd hh (by simp),
                fun _ hh => absurd hh (by simp), fun _ _ => rfl⟩
  · intro store zn ds records st dc fd hne hz hdone
    have hne2 : ¬(ds.isEmpty = true) := by simpa [List.isEmpty_iff] using hne
    have hres : (delete_records store zn ds).1
        = DeleteResult.done
            (if (deleteLoop zn ds records 0 [] []).2.2.1.isEmpty = true then 200 else 202)
            (deleteLoop zn ds records 0 [] []).2.1
            (deleteLoop zn ds records 0 [] []).2.2.1 := by
      unfold delete_records
      rw [if_neg hne2, hz]
      dsimp only
      split <;> rfl
    have haud : (delete_records store zn ds).2.2
        = (deleteLoop zn ds records 0 [] []).2.2.2 := by
      unfold delete_records
      rw [if_neg hne2, hz]
      dsimp only
      split <;> rfl
    have hkey := hres.symm.trans hdone
    rw [DeleteResult.done.injEq] at hkey
    obtain ⟨-, hdc, hfd⟩ := hkey
    have hspec := deleteLoop_audit zn ds records 0 [] []
    rw [haud, ← hdc, ← hfd]
    exact ⟨by simpa using hspec.1, by simpa using hspec.2.1, by simpa using hspec.2.2⟩
  · intro store zn ds st hor
    unfold delete_records at hor ⊢
    by_cases hc : ds.isEmpty = true
    · rw [if_pos hc]
    · rw [if_neg hc] at hor ⊢
      cases hz : lookupZone store zn with
      | none => rfl
      | some records =>
          dsimp only at hor ⊢
          rw [hz] at hor
          dsimp only at hor
          revert hor
          split <;> (intro hor; rcases hor with hh | hh <;> exact absurd hh (by simp))
  · intro oracle store zn cs records st sc fc hne hz hdone
    have hne2 : ¬(cs.isEmpty = true) := by simpa [List.isEmpty_iff] using hne
    have hres : (bulk_update oracle store zn cs).1
        = BulkResult.done 200 (bulkLoop oracle zn cs records 0 0 [] []).2.1
            (bulkLoop oracle zn cs records 0 0 [] []).2.2.1 := by
      unfold bulk_update
      rw [if_neg hne2, hz]
      dsimp only
      split <;> rfl
    have haud : (bulk_update oracle store zn cs).2.2
        = (bulkLoop oracle zn cs records 0 0 [] []).2.2.2 := by
      unfold bulk_update
      rw [if_neg hne2, hz]
      dsimp only
      split <;> rfl
    have hkey := hres.symm.trans hdone
    rw [BulkResult.done.injEq] at hkey
    obtain ⟨-, hsc, hfc⟩ := hkey
    have hspec := bulkLoop_spec oracle zn cs records 0 0 [] []
    rw [haud, ← hsc, ← hfc]
    exact ⟨by simpa using hspec.1, by simpa using hspec.2.2.1, by simpa using hspec.2.2.2⟩
  · intro oracle store zn cs st hor
    unfold bulk_update at hor ⊢
    by_cases hc : cs.isEmpty = true
    · rw [if_pos hc]
    · rw [if_neg hc] at hor ⊢
      cases hz : lookupZone store zn with
      | none => rfl
      | some records =>
          dsimp only at hor ⊢
          rw [hz] at hor
          dsimp only at hor
          revert hor
          split <;> (intro hor; rcases hor with hh | hh <;> exact absurd hh (by simp))

/-- C1 witness: concrete instances of the amended audit discipline — a
successful connect logs INFO+INFO, a missing zone read logs one WARNING, a
validation-failed add logs nothing, a failed update logs one ERROR, a
two-record delete batch logs two entries (one INFO, one ERROR), and a bulk
call with one missing-data change and one successful add logs exactly one
INFO entry. -/
theorem C1_audit_discipline_amended_witness :
    ((connect [("z", [⟨"www", "A", "1.1.1.1"⟩])] "srv" "admin@example.com" "password").2.map
        AuditEntry.level = ["INFO", "INFO"]) ∧
    ((get_records [("z", [⟨"www", "A", "1.1.1.1"⟩])] "nozone" "All" "").2.map
        AuditEntry.level = ["WARNING"]) ∧
    ((add_record [("z", [⟨"www", "A", "1.1.1.1"⟩])] "z" "" "A" "1.1.1.1").2.2 = []) ∧
    ((update_record [("z", [⟨"www", "A", "1.1.1.1"⟩])] "z"
        "ghost" "A" "1.1.1.1" "2.2.2.2").2.2.map AuditEntry.level = ["ERROR"]) ∧
    ((delete_records [("z", [⟨"www", "A", "1.1.1.1"⟩])] "z"
          [⟨"www", "A", "1.1.1.1"⟩, ⟨"ghost", "A", "9.9.9.9"⟩]).2.2.length = 2 ∧
      (delete_records [("z", [⟨"www", "A", "1.1.1.1"⟩])] "z"
          [⟨"www", "A", "1.1.1.1"⟩, ⟨"ghost", "A", "9.9.9.9"⟩]).2.2.countP
            (fun e => e.level == "INFO") = 1 ∧
      (delete_records [("z", [⟨"www", "A", "1.1.1.1"⟩])] "z"
          [⟨"www", "A", "1.1.1.1"⟩, ⟨"ghost", "A", "9.9.9.9"⟩]).2.2.countP
            (fun e => e.level == "ERROR") = 1) ∧
    ((bulk_update (fun _ => true) [("z", [⟨"www", "A", "1.1.1.1"⟩])] "z"
            [⟨"", "A", "1.1.1.1", ""⟩, ⟨"a", "A", "2.2.2.2", ""⟩]).2.2.length
          + [(⟨"", "A", "1.1.1.1", ""⟩ : BulkChange),
              ⟨"a", "A", "2.2.2.2", ""⟩].countP changeMissing = 2 ∧
      (bulk_update (fun _ => true) [("z", [⟨"www", "A", "1.1.1.1"⟩])] "z"
          [⟨"", "A", "1.1.1.1", ""⟩, ⟨"a", "A", "2.2.2.2", ""⟩]).2.2.countP
            (fun e => e.level == "INFO") = 1 ∧
      (bulk_update (fun _ => true) [("z", [⟨"www", "A", "1.1.1.1"⟩])] "z"
            [⟨"", "A", "1.1.1.1", ""⟩, ⟨"a", "A", "2.2.2.2", ""⟩]).2.2.countP
            (fun e => e.level == "ERROR")
          + [(⟨"", "A", "1.1.1.1", ""⟩ : BulkChange),
              ⟨"a", "A", "2.2.2.2", ""⟩].countP changeMissing = 1) := by
  obtain ⟨hconn, hget, hadd, hupd, hdel, -, hbulk, -, -⟩ := C1_audit_discipline_amended
  exact ⟨(hconn [("z", [⟨"www", "A", "1.1.1.1"⟩])] "srv" "admin@example.com" "password").1
      ["z"] 200 (by decide),
    (hget [("z", [⟨"www", "A", "1.1.1.1"⟩])] "nozone" "All" "").1 (by decide),
    (hadd [("z", [⟨"www", "A", "1.1.1.1"⟩])] "z" "" "A" "1.1.1.1").1 400 (by decide),
    (hupd [("z", [⟨"www", "A", "1.1.1.1"⟩])] "z" "ghost" "A" "1.1.1.1" "2.2.2.2").2.2.2
      404 (by decide),
    hdel [("z", [⟨"www", "A", "1.1.1.1"⟩])] "z"
      [⟨"www", "A", "1.1.1.1"⟩, ⟨"ghost", "A", "9.9.9.9"⟩] [⟨"www", "A", "1.1.1.1"⟩]
      202 1 [⟨"ghost", "A", "9.9.9.9"⟩] (by decide) (by decide) (by decide),
    hbulk (fun _ => true) [("z", [⟨"www", "A", "1.1.1.1"⟩])] "z"
      [⟨"", "A", "1.1.1.1", ""⟩, ⟨"a", "A", "2.2.2.2", ""⟩] [⟨"www", "A", "1.1.1.1"⟩]
      200 1 [⟨⟨"", "A", "1.1.1.1", ""⟩, "Missing data"⟩] (by decide) (by decide) (by decide)⟩
